import Mathlib

/-!
Shallow embedding of the DPDK FFI shim (src/ffi/src/shim.h and
src/src/ffi/shim.c): packet buffers, buffer pools, per-worker error
slots, and burst receive/transmit against device queues.

The shim functions in shim.c are exact pass-throughs to the underlying
rte_* library calls; the library-side semantics (pools, queues, the
per-thread errno slot) is modelled here from the specification, since
the library is an external collaborator whose code is not part of the
repository.  The underlying modelled operations carry the rte_* names
and the shim wrappers carry their source names with the leading
underscore.
-/

/-- A packet buffer (struct rte_mbuf): opaque payload plus metadata —
the identity of its owning pool, a reference count, and the valid data
length. -/
structure Mbuf where
  pool : Nat
  refcnt : Nat
  dataLen : Nat
deriving Repr, DecidableEq

/-- Modelled from the spec: the library-side state the shim forwards
into — per-pool free sets, the per-worker errno slots, per-(port,queue)
RX packet queues and TX queues with their remaining room, and the fixed
worker-to-socket topology table.  Workers, pools, ports, queues and
sockets are identified by naturals. -/
structure DpdkState where
  pools : Nat → List Mbuf
  errno : Nat → Int
  rxq : Nat → Nat → List Mbuf
  txq : Nat → Nat → List Mbuf
  txRoom : Nat → Nat → Nat
  topo : Nat → Nat
  curLcore : Nat

/-- Error code recorded when a pool cannot satisfy a bulk allocation
(OutOfBuffers). -/
def ENOENT : Int := 2

/-- Modelled from the spec: rte_errno is a per-thread error slot; the
read by worker w returns w's own slot and has no side effect. -/
def rte_errno (w : Nat) (s : DpdkState) : Int :=
  s.errno w

/-- Modelled from the spec: rte_lcore_id returns the identifier of the
calling execution unit, read from the state with no side effect. -/
def rte_lcore_id (s : DpdkState) : Nat :=
  s.curLcore

/-- Modelled from the spec: rte_lcore_to_socket_id is a pure lookup in
the fixed topology table; the state is returned unchanged. -/
def rte_lcore_to_socket_id (lcore : Nat) (s : DpdkState) : Nat × DpdkState :=
  (s.topo lcore, s)

/-- Modelled from the spec: a buffer handed out by allocation has its
reference count initialized to 1 and its metadata reset to the default
empty state (zero valid data length), whatever it held before. -/
def rte_pktmbuf_reset (m : Mbuf) : Mbuf :=
  { m with refcnt := 1, dataLen := 0 }

/-- Modelled from the spec: rte_pktmbuf_alloc_bulk, called by worker w,
atomically reserves count buffers from pool pid or fails entirely.  On
success the first count buffers of the free set are removed, reset and
returned; on failure nothing is removed and the caller's errno slot
records OutOfBuffers. -/
def rte_pktmbuf_alloc_bulk (w pid count : Nat) (s : DpdkState) :
    Option (List Mbuf) × DpdkState :=
  let free := s.pools pid
  if count ≤ free.length then
    (some ((free.take count).map rte_pktmbuf_reset),
     { s with pools := fun p => if p = pid then free.drop count else s.pools p })
  else
    (none, { s with errno := fun v => if v = w then ENOENT else s.errno v })

/-- Modelled from the spec: rte_pktmbuf_free decrements the buffer's
reference count and, once it reaches zero, places the buffer back in
the free set of its own owning pool. -/
def rte_pktmbuf_free (m : Mbuf) (s : DpdkState) : DpdkState :=
  if m.refcnt ≤ 1 then
    { s with pools := fun p =>
        if p = m.pool then s.pools m.pool ++ [{ m with refcnt := 0 }]
        else s.pools p }
  else s

/-- Modelled from the spec: rte_mempool_put_bulk puts several objects
back in the designated mempool. -/
def rte_mempool_put_bulk (mp : Nat) (objs : List Mbuf) (s : DpdkState) : DpdkState :=
  { s with pools := fun p => if p = mp then s.pools mp ++ objs else s.pools p }

/-- Modelled from the spec: release_bulk returns every buffer of the
sequence to its owning pool by freeing each buffer in turn. -/
def release_bulk (bufs : List Mbuf) (s : DpdkState) : DpdkState :=
  bufs.foldl (fun st m => rte_pktmbuf_free m st) s

/-- Modelled from the spec: rte_eth_rx_burst pulls up to nb packets
from the RX queue of (port, queue), transferring them to the caller;
it never blocks and returns fewer than nb (zero included) when fewer
are available, without touching any error state. -/
def rte_eth_rx_burst (port queue nb : Nat) (s : DpdkState) :
    List Mbuf × DpdkState :=
  ((s.rxq port queue).take nb,
   { s with rxq := fun p q =>
       if p = port then
         if q = queue then (s.rxq port queue).drop nb else s.rxq p q
       else s.rxq p q })

/-- Modelled from the spec: rte_eth_tx_burst hands buffers to the TX
queue of (port, queue) in array order, accepting as many as the queue
has room for; the accepted prefix is appended to the queue and the
count accepted is returned. -/
def rte_eth_tx_burst (port queue : Nat) (bufs : List Mbuf) (s : DpdkState) :
    Nat × DpdkState :=
  let sent := min bufs.length (s.txRoom port queue)
  (sent,
   { s with
     txq := fun p q =>
       if p = port then
         if q = queue then s.txq port queue ++ bufs.take sent else s.txq p q
       else s.txq p q,
     txRoom := fun p q =>
       if p = port then
         if q = queue then s.txRoom port queue - sent else s.txRoom p q
       else s.txRoom p q })

/-- Shim wrapper from shim.c: returns rte_errno for the calling worker. -/
def _rte_errno (w : Nat) (s : DpdkState) : Int :=
  rte_errno w s

/-- Shim wrapper from shim.c: returns rte_lcore_id(). -/
def _rte_lcore_id (s : DpdkState) : Nat :=
  rte_lcore_id s

/-- Shim wrapper from shim.c: returns rte_lcore_to_socket_id(lcore_id). -/
def _rte_lcore_to_socket_id (lcore : Nat) (s : DpdkState) : Nat × DpdkState :=
  rte_lcore_to_socket_id lcore s

/-- Shim wrapper declared in shim.h (body outside src): forwards to
rte_pktmbuf_alloc_bulk. -/
def _rte_pktmbuf_alloc_bulk (w pid count : Nat) (s : DpdkState) :
    Option (List Mbuf) × DpdkState :=
  rte_pktmbuf_alloc_bulk w pid count s

/-- Shim wrapper declared in shim.h (body outside src): forwards to
rte_pktmbuf_free. -/
def _rte_pktmbuf_free (m : Mbuf) (s : DpdkState) : DpdkState :=
  rte_pktmbuf_free m s

/-- Shim wrapper declared in shim.h (body outside src): forwards to
rte_mempool_put_bulk. -/
def _rte_mempool_put_bulk (mp : Nat) (objs : List Mbuf) (s : DpdkState) : DpdkState :=
  rte_mempool_put_bulk mp objs s

/-- Shim wrapper from shim.c: forwards to rte_eth_rx_burst. -/
def _rte_eth_rx_burst (port queue nb : Nat) (s : DpdkState) :
    List Mbuf × DpdkState :=
  rte_eth_rx_burst port queue nb s

/-- Shim wrapper from shim.c: forwards to rte_eth_tx_burst. -/
def _rte_eth_tx_burst (port queue : Nat) (bufs : List Mbuf) (s : DpdkState) :
    Nat × DpdkState :=
  rte_eth_tx_burst port queue bufs s

/-- A fixed topology table used by concrete witness states. -/
def demoTopo : Nat → Nat := fun n => n % 2

/-- A concrete state whose pool 0 holds three free buffers with stale
metadata from earlier use. -/
def demoState : DpdkState where
  pools := fun p => if p = 0 then
      [⟨0, 1, 5⟩, ⟨0, 1, 9⟩, ⟨0, 1, 0⟩] else []
  errno := fun _ => 0
  rxq := fun _ _ => []
  txq := fun _ _ => []
  txRoom := fun _ _ => 8
  topo := demoTopo
  curLcore := 0

/-- A concrete state with empty pools and empty queues, differing from
demoState everywhere except the topology table. -/
def emptyState : DpdkState where
  pools := fun _ => []
  errno := fun _ => 7
  rxq := fun _ _ => []
  txq := fun _ _ => []
  txRoom := fun _ _ => 1
  topo := demoTopo
  curLcore := 3

/-- Claim C1: allocate_bulk is all-or-nothing — with at least count free
buffers it succeeds and returns exactly count buffers; otherwise it
fails, returns no buffers, and leaves every pool's free set exactly as
it was before the call. -/
theorem alloc_bulk_all_or_nothing (w pid count : Nat) (s : DpdkState) :
    (count ≤ (s.pools pid).length →
      ∃ bufs, (_rte_pktmbuf_alloc_bulk w pid count s).fst = some bufs ∧
        bufs.length = count) ∧
    ((s.pools pid).length < count →
      (_rte_pktmbuf_alloc_bulk w pid count s).fst = none ∧
      ((_rte_pktmbuf_alloc_bulk w pid count s).snd).pools = s.pools) := by
  constructor
  · intro h
    refine ⟨((s.pools pid).take count).map rte_pktmbuf_reset, ?_, ?_⟩
    · simp [_rte_pktmbuf_alloc_bulk, rte_pktmbuf_alloc_bulk, h]
    · simp [List.length_take, Nat.min_eq_left h]
  · intro h
    have h' : ¬ count ≤ (s.pools pid).length := Nat.not_le.mpr h
    constructor <;>
      simp [_rte_pktmbuf_alloc_bulk, rte_pktmbuf_alloc_bulk, h']

/-- Witness for C1: on the concrete demoState, requesting 2 of the 3
free buffers succeeds with exactly 2, and requesting 9 fails leaving
the free sets unchanged. -/
theorem alloc_bulk_all_or_nothing_witness :
    (∃ bufs, (_rte_pktmbuf_alloc_bulk 0 0 2 demoState).fst = some bufs ∧
       bufs.length = 2) ∧
    ((_rte_pktmbuf_alloc_bulk 0 0 9 demoState).fst = none ∧
     ((_rte_pktmbuf_alloc_bulk 0 0 9 demoState).snd).pools = demoState.pools) :=
  ⟨(alloc_bulk_all_or_nothing 0 0 2 demoState).1 (by decide),
   (alloc_bulk_all_or_nothing 0 0 9 demoState).2 (by decide)⟩

/-- Claim C2: receive_burst returns at most nb buffers, returns none
when the queue has no packets, and a short return is a normal outcome —
it records no error (the errno slots are untouched). -/
theorem rx_burst_bounded (port queue nb : Nat) (s : DpdkState) :
    ((_rte_eth_rx_burst port queue nb s).fst).length ≤ nb ∧
    (s.rxq port queue = [] → (_rte_eth_rx_burst port queue nb s).fst = []) ∧
    ((_rte_eth_rx_burst port queue nb s).snd).errno = s.errno := by
  refine ⟨?_, ?_, rfl⟩
  · simp [_rte_eth_rx_burst, rte_eth_rx_burst]
  · intro h
    simp [_rte_eth_rx_burst, rte_eth_rx_burst, h]

/-- Witness for C2: on the concrete emptyState, whose RX queue (0,0)
holds no packets, a burst of capacity 32 returns no buffers. -/
theorem rx_burst_bounded_witness :
    (_rte_eth_rx_burst 0 0 32 emptyState).fst = [] :=
  (rx_burst_bounded 0 0 32 emptyState).2.1 rfl

/-- Claim C3: transmit_burst returns count_sent at most the number of
buffers supplied; the buffers beyond count_sent are exactly the
unmodified suffix of the caller's array (the array splits as accepted
prefix followed by the untouched remainder), and only the accepted
prefix is handed to the queue. -/
theorem tx_burst_partial (port queue : Nat) (bufs : List Mbuf) (s : DpdkState) :
    (_rte_eth_tx_burst port queue bufs s).fst ≤ bufs.length ∧
    bufs.take ((_rte_eth_tx_burst port queue bufs s).fst) ++
      bufs.drop ((_rte_eth_tx_burst port queue bufs s).fst) = bufs ∧
    ((_rte_eth_tx_burst port queue bufs s).snd).txq port queue =
      s.txq port queue ++ bufs.take ((_rte_eth_tx_burst port queue bufs s).fst) := by
  refine ⟨?_, List.take_append_drop .., ?_⟩
  · exact Nat.min_le_left ..
  · simp [_rte_eth_tx_burst, rte_eth_tx_burst]

/-- Claim C5: every buffer returned by a successful allocate_bulk has
reference count 1 and zero valid data length, regardless of the
metadata it carried before release. -/
theorem alloc_bulk_resets (w pid count : Nat) (s : DpdkState) (bufs : List Mbuf)
    (h : (_rte_pktmbuf_alloc_bulk w pid count s).fst = some bufs) :
    ∀ m ∈ bufs, m.refcnt = 1 ∧ m.dataLen = 0 := by
  intro m hm
  unfold _rte_pktmbuf_alloc_bulk rte_pktmbuf_alloc_bulk at h
  by_cases hc : count ≤ (s.pools pid).length
  · simp only [hc, if_pos, Option.some.injEq] at h
    subst h
    rcases List.mem_map.mp hm with ⟨x, _, hx⟩
    subst hx
    exact ⟨rfl, rfl⟩
  · simp [hc] at h

/-- Witness for C5: allocating one buffer from demoState, whose head
free buffer carries stale dataLen 5, yields a buffer with reference
count 1 and dataLen 0. -/
theorem alloc_bulk_resets_witness :
    (⟨0, 1, 0⟩ : Mbuf).refcnt = 1 ∧ (⟨0, 1, 0⟩ : Mbuf).dataLen = 0 :=
  alloc_bulk_resets 0 0 1 demoState [⟨0, 1, 0⟩] (by decide) ⟨0, 1, 0⟩
    (by decide)

/-- Claim C7: the buffers accepted by the transmit queue are exactly
the first count_sent elements of the caller's array, appended to the
queue in their original order. -/
theorem tx_burst_order (port queue : Nat) (bufs : List Mbuf) (s : DpdkState) :
    ((_rte_eth_tx_burst port queue bufs s).snd).txq port queue =
      s.txq port queue ++ bufs.take ((_rte_eth_tx_burst port queue bufs s).fst) := by
  simp [_rte_eth_tx_burst, rte_eth_tx_burst]

/-- Freeing some other buffer never removes a buffer already present in
a pool's free set: rte_pktmbuf_free only ever appends. -/
theorem mem_pools_rte_pktmbuf_free (m x : Mbuf) (s : DpdkState) (p : Nat)
    (h : x ∈ s.pools p) : x ∈ (rte_pktmbuf_free m s).pools p := by
  unfold rte_pktmbuf_free
  by_cases hr : m.refcnt ≤ 1
  · by_cases hp : p = m.pool
    · subst hp
      simp only [hr, if_pos, if_true]
      exact List.mem_append_left _ h
    · simpa [hr, hp] using h
  · simpa [hr] using h

/-- Membership in a pool's free set is preserved across a whole
release_bulk call. -/
theorem mem_pools_release_bulk (bufs : List Mbuf) (x : Mbuf) (s : DpdkState)
    (p : Nat) (h : x ∈ s.pools p) : x ∈ (release_bulk bufs s).pools p := by
  induction bufs generalizing s with
  | nil => exact h
  | cons b bs ih =>
      exact ih (rte_pktmbuf_free b s) (mem_pools_rte_pktmbuf_free b x s p h)

/-- Claim C4: release_bulk routes every buffer of the sequence to its
own owning pool, even when the sequence mixes buffers from several
pools — each buffer whose reference count reaches zero ends up in the
free set of the pool recorded in the buffer itself. -/
theorem release_bulk_routes_to_owner (bufs : List Mbuf) (s : DpdkState)
    (m : Mbuf) (hm : m ∈ bufs) (hr : m.refcnt = 1) :
    { m with refcnt := 0 } ∈ (release_bulk bufs s).pools m.pool := by
  induction bufs generalizing s with
  | nil => cases hm
  | cons b bs ih =>
      rcases List.mem_cons.mp hm with hb | hb
      · subst hb
        refine mem_pools_release_bulk bs _ (rte_pktmbuf_free m s) m.pool ?_
        unfold rte_pktmbuf_free
        simp [hr]
      · exact ih (rte_pktmbuf_free b s) hb

/-- Witness for C4: releasing a two-buffer sequence drawn from pools 0
and 1 in one call places the pool-1 buffer in pool 1's free set. -/
theorem release_bulk_routes_to_owner_witness :
    ({ pool := 1, refcnt := 0, dataLen := 7 } : Mbuf) ∈
      (release_bulk [⟨0, 1, 4⟩, ⟨1, 1, 7⟩] emptyState).pools 1 :=
  release_bulk_routes_to_owner [⟨0, 1, 4⟩, ⟨1, 1, 7⟩] emptyState
    ⟨1, 1, 7⟩ (by decide) rfl

/-- Claim C6: the errno slot is isolated per worker — a bulk allocation
performed (and possibly failing) on worker w never changes the error
code another worker w2 observes through last_error. -/
theorem errno_per_worker_isolated (w w2 pid count : Nat) (s : DpdkState)
    (h : w ≠ w2) :
    _rte_errno w2 ((_rte_pktmbuf_alloc_bulk w pid count s).snd) =
      _rte_errno w2 s := by
  unfold _rte_errno rte_errno _rte_pktmbuf_alloc_bulk rte_pktmbuf_alloc_bulk
  by_cases hc : count ≤ (s.pools pid).length
  · simp [hc]
  · have h2 : w2 ≠ w := fun hh => h hh.symm
    simp [hc, h2]

/-- Witness for C6: worker 0 failing a 99-buffer allocation on
demoState leaves the error code worker 1 reads unchanged. -/
theorem errno_per_worker_isolated_witness :
    _rte_errno 1 ((_rte_pktmbuf_alloc_bulk 0 0 99 demoState).snd) =
      _rte_errno 1 demoState :=
  errno_per_worker_isolated 0 1 0 99 demoState (by decide)

/-- Claim C8: socket_of is a pure, deterministic lookup — it returns
the state unchanged, and any two calls with the same worker identifier
against the same topology table return the same socket. -/
theorem lcore_to_socket_id_pure (lcore : Nat) (s : DpdkState) :
    (_rte_lcore_to_socket_id lcore s).snd = s ∧
    (∀ s2 : DpdkState, s2.topo = s.topo →
      (_rte_lcore_to_socket_id lcore s2).fst =
        (_rte_lcore_to_socket_id lcore s).fst) := by
  refine ⟨rfl, ?_⟩
  intro s2 h
  simp [_rte_lcore_to_socket_id, rte_lcore_to_socket_id, h]

/-- Witness for C8: on two concrete states sharing the demoTopo table
but differing in every other field, looking up worker 5 has no side
effect and returns the same socket. -/
theorem lcore_to_socket_id_pure_witness :
    (_rte_lcore_to_socket_id 5 demoState).snd = demoState ∧
    (_rte_lcore_to_socket_id 5 emptyState).fst =
      (_rte_lcore_to_socket_id 5 demoState).fst :=
  ⟨(lcore_to_socket_id_pure 5 demoState).1,
   (lcore_to_socket_id_pure 5 demoState).2 emptyState rfl⟩

/-- Claim C9: every exported shim function is an exact pass-through —
for all arguments and states, each wrapper returns precisely the value
of the corresponding rte_* operation applied unchanged, with exactly
the same resulting state and nothing added. -/
theorem shim_exact_pass_through (w lcore port queue nb : Nat)
    (bufs : List Mbuf) (s : DpdkState) :
    _rte_errno w s = rte_errno w s ∧
    _rte_lcore_id s = rte_lcore_id s ∧
    _rte_lcore_to_socket_id lcore s = rte_lcore_to_socket_id lcore s ∧
    _rte_eth_rx_burst port queue nb s = rte_eth_rx_burst port queue nb s ∧
    _rte_eth_tx_burst port queue bufs s = rte_eth_tx_burst port queue bufs s :=
  ⟨rfl, rfl, rfl, rfl, rfl⟩

/-- Claim C10: at the burst interface all ports, queues, burst sizes
and returned counts are 16-bit — whenever the arguments fit in
uint16_t, the returned count of both burst operations lies in
0..65535. -/
theorem burst_counts_are_u16 (port queue nb : Nat) (bufs : List Mbuf)
    (s : DpdkState) (_hport : port < 65536) (_hqueue : queue < 65536)
    (hnb : nb < 65536) (hbufs : bufs.length < 65536) :
    ((_rte_eth_rx_burst port queue nb s).fst).length ≤ 65535 ∧
    (_rte_eth_tx_burst port queue bufs s).fst ≤ 65535 := by
  constructor
  · have h1 : ((_rte_eth_rx_burst port queue nb s).fst).length ≤ nb := by
      simp [_rte_eth_rx_burst, rte_eth_rx_burst]
    exact Nat.le_trans h1 (Nat.lt_succ_iff.mp hnb)
  · have h2 : (_rte_eth_tx_burst port queue bufs s).fst ≤ bufs.length :=
      Nat.min_le_left ..
    exact Nat.le_trans h2 (Nat.lt_succ_iff.mp hbufs)

/-- Witness for C10: a concrete receive of capacity 64 and a transmit
of two buffers on demoState both return counts within 0..65535. -/
theorem burst_counts_are_u16_witness :
    ((_rte_eth_rx_burst 3 1 64 demoState).fst).length ≤ 65535 ∧
    (_rte_eth_tx_burst 3 1 [⟨0, 1, 0⟩, ⟨0, 1, 3⟩] demoState).fst ≤ 65535 :=
  burst_counts_are_u16 3 1 64 [⟨0, 1, 0⟩, ⟨0, 1, 3⟩] demoState
    (by decide) (by decide) (by decide) (by decide)
